import Mathlib

/-!
Shallow embedding of the health-aggregation engine of `src/master_health.py`
(class `MasterHealth`): the status-derivation rules of the probes
(`check_master_nodes`, `check_critical_operators`, `check_etcd_health`,
`check_control_plane_pods`) and the pagination/retry helpers
(`_get_paginated_pods`, `_get_paginated_response`).

Statuses are the Python strings ("Healthy", "Warning", "Unhealthy", "Error").
The cluster query capability is passed in explicitly: a probe that wraps its
body in try/except takes an `Except String data` argument (the `.error` case
is the caught exception, whose text is `str(e)`); the pagination helpers take
a call-indexed API function so that per-call failures can be expressed.
-/

set_option autoImplicit false

namespace K8s

/-- A Kubernetes condition entry (`type`, `status`, `message`), as read from
`node.status.conditions` or `operator.status.conditions`. -/
structure Condition where
  type : String
  status : String
  message : String
  deriving DecidableEq

/-- A node: its `metadata.name` and `status.conditions`. -/
structure Node where
  name : String
  conditions : List Condition
  deriving DecidableEq

/-- The per-node result dict built by `check_master_nodes`:
`{'name': ..., 'status': ..., 'issues': [...], 'warnings': [...]}`. -/
structure NodeStatus where
  name : String
  status : String
  issues : List String
  warnings : List String
  deriving DecidableEq

/-- One iteration of the condition loop of `check_master_nodes`
(src/master_health.py lines 61-67): a bad `Ready` condition overwrites the
status with `'Unhealthy'` and appends to `issues`; a true pressure condition
overwrites the status with `'Warning'` and appends to `warnings`. -/
def checkNodeCondition (s : NodeStatus) (c : Condition) : NodeStatus :=
  if c.type == "Ready" && c.status != "True" then
    { s with status := "Unhealthy",
             issues := s.issues ++ ["Node not ready: " ++ c.message] }
  else if (c.type == "DiskPressure" || c.type == "MemoryPressure" || c.type == "PIDPressure")
      && c.status == "True" then
    { s with status := "Warning",
             warnings := s.warnings ++ [c.type ++ ": " ++ c.message] }
  else s

/-- The body of the per-node loop of `check_master_nodes`: start from
`{'status': 'Healthy', 'issues': [], 'warnings': []}` and fold the condition
checks over `node.status.conditions`. -/
def checkNode (n : Node) : NodeStatus :=
  n.conditions.foldl checkNodeCondition
    { name := n.name, status := "Healthy", issues := [], warnings := [] }

/-- `check_master_nodes` (lines 42-77), as a function of the outcome of the
node query. On an exception it returns the single `Error` record (line 77);
on success it maps the per-node derivation over the fetched nodes. When the
result list is empty it prints a console warning (line 72) and returns the
empty list unchanged (line 74). -/
def checkMasterNodes (fetched : Except String (List Node)) : List NodeStatus :=
  match fetched with
  | .error e => [{ name := "unknown", status := "Error", issues := [e], warnings := [] }]
  | .ok nodes => nodes.map checkNode

/-- A cluster operator: `metadata.name`, and `status.conditions` when present
(`hasattr(operator.status, 'conditions')` is modelled by the `Option`). -/
structure ClusterOperator where
  name : String
  conditions : Option (List Condition)
  deriving DecidableEq

/-- The per-operator result dict built by `check_critical_operators`:
`{'name': ..., 'status': ..., 'issues': [...]}`. -/
structure OperatorStatus where
  name : String
  status : String
  issues : List String
  deriving DecidableEq

/-- One iteration of the condition loop of `check_critical_operators`
(src/master_health.py lines 291-300): `Degraded=True` overwrites the status
with `'Unhealthy'`; `Progressing=True` overwrites it with `'Warning'`;
`Available != 'True'` overwrites it with `'Unhealthy'`; each branch appends
its message to `issues`. -/
def checkOperatorCondition (s : OperatorStatus) (c : Condition) : OperatorStatus :=
  if c.type == "Degraded" && c.status == "True" then
    { s with status := "Unhealthy", issues := s.issues ++ [c.message] }
  else if c.type == "Progressing" && c.status == "True" then
    { s with status := "Warning",
             issues := s.issues ++ ["Operator is progressing: " ++ c.message] }
  else if c.type == "Available" && c.status != "True" then
    { s with status := "Unhealthy",
             issues := s.issues ++ ["Operator not available: " ++ c.message] }
  else s

/-- The body of the per-operator loop of `check_critical_operators`
(lines 282-302): start Healthy and, when the operator has a conditions
attribute, fold the condition checks over it. -/
def checkOperator (op : ClusterOperator) : OperatorStatus :=
  match op.conditions with
  | none => { name := op.name, status := "Healthy", issues := [] }
  | some conds =>
      conds.foldl checkOperatorCondition { name := op.name, status := "Healthy", issues := [] }

/-- `check_critical_operators` (lines 271-307), as a function of the outcome
of the operator query. On an exception it returns the single `Error`
record (line 307). -/
def checkCriticalOperators (fetched : Except String (List ClusterOperator)) :
    List OperatorStatus :=
  match fetched with
  | .error e => [{ name := "unknown", status := "Error", issues := [e] }]
  | .ok ops => ops.map checkOperator

/-- A container status entry: `name` and `ready`. -/
structure ContainerStatus where
  name : String
  ready : Bool
  deriving DecidableEq

/-- A pod's `status` object: `phase`, and `container_statuses` when present
(the `hasattr(pod.status, 'container_statuses')` check is the `Option`). -/
structure PodStatus where
  phase : String
  containerStatuses : Option (List ContainerStatus)
  deriving DecidableEq

/-- A pod: `metadata.name`, and its `status` when present
(the `hasattr(pod, 'status')` check is the `Option`). -/
structure Pod where
  name : String
  status : Option PodStatus
  deriving DecidableEq

/-- The result dict of `check_etcd_health`: the `status` string plus the
fields the various return statements populate (`issues`, `error`,
`message`). -/
structure EtcdResult where
  status : String
  issues : List String
  error : Option String
  message : Option String
  deriving DecidableEq

/-- The operator-condition loop of `check_etcd_health` (lines 170-180): the
first condition that is `Degraded=True` or `Available != 'True'` makes the
probe return `Unhealthy` immediately; otherwise the scan falls through. -/
def etcdOperatorVerdict : List Condition → Option EtcdResult
  | [] => none
  | c :: rest =>
      if c.type == "Degraded" && c.status == "True" then
        some { status := "Unhealthy", issues := [c.message], error := none, message := none }
      else if c.type == "Available" && c.status != "True" then
        some { status := "Unhealthy",
               issues := ["etcd operator not available: " ++ c.message],
               error := none, message := none }
      else etcdOperatorVerdict rest

/-- The unhealthy-pod collection of `check_etcd_health` (lines 195-206): a
pod with no status attribute, a non-Running phase, or a not-ready container
contributes one entry per finding. -/
def etcdPodFindings (p : Pod) : List String :=
  match p.status with
  | none => [p.name ++ ": Unable to get pod status"]
  | some st =>
      if st.phase != "Running" then [p.name ++ ": " ++ st.phase]
      else
        match st.containerStatuses with
        | none => []
        | some cs =>
            (cs.filter (fun c => !c.ready)).map
              (fun c => p.name ++ ": container " ++ c.name ++ " not ready")

/-- `check_etcd_health` (lines 150-224), as a function of the fetched
`metadata.name=etcd` operator list and the fetched `openshift-etcd` pods
(the latter already the output of `_get_paginated_pods`, so an empty list
also stands for a swallowed fetch failure). -/
def checkEtcdHealth (etcdOperators : List ClusterOperator) (etcdPods : List Pod) :
    EtcdResult :=
  match etcdOperators with
  | [] => { status := "Error", issues := [],
            error := some "Unable to find etcd operator", message := none }
  | op :: _ =>
      let verdict := match op.conditions with
        | none => none
        | some conds => etcdOperatorVerdict conds
      match verdict with
      | some r => r
      | none =>
          if etcdPods.isEmpty then
            { status := "Error", issues := [],
              error := some "No etcd pods found", message := none }
          else
            let unhealthy := (etcdPods.map etcdPodFindings).flatten
            if unhealthy.isEmpty then
              { status := "Healthy", issues := [], error := none,
                message := some "All etcd pods are running and ready" }
            else
              { status := "Unhealthy", issues := unhealthy, error := none, message := none }

/-- The fixed `critical_namespaces` list of `check_control_plane_pods`
(lines 311-317). -/
def criticalNamespaces : List String :=
  ["openshift-etcd",
   "openshift-apiserver",
   "openshift-kube-apiserver",
   "openshift-kube-controller-manager",
   "openshift-kube-scheduler"]

/-- The component substrings of the pod-name filter (lines 337-338). -/
def componentNames : List String :=
  ["etcd", "apiserver", "controller-manager", "scheduler"]

/-- Python's `component in pod.metadata.name` substring test. -/
def containsComponent (podName : String) : Bool :=
  componentNames.any (fun comp => decide (comp.toList <:+: podName.toList))

/-- The result dict built per control-plane entity:
`{'name': ..., 'namespace': ..., 'status': ..., 'issues': [...]}`. -/
structure CPStatus where
  name : String
  nsName : String
  status : String
  issues : List String
  deriving DecidableEq

/-- The inner container loop body of `check_control_plane_pods`
(lines 357-360): a not-ready container overwrites the status with
`Unhealthy` and appends an issue. -/
def checkContainer (s : CPStatus) (c : ContainerStatus) : CPStatus :=
  if !c.ready then
    { s with status := "Unhealthy",
             issues := s.issues ++ ["Container " ++ c.name ++ " not ready"] }
  else s

/-- The per-pod status derivation of `check_control_plane_pods`
(lines 342-361): missing status attribute is `Error`; a non-Running phase is
`Unhealthy`; otherwise the container loop runs over the pod's container
statuses when present. -/
def checkPodEntity (ns : String) (p : Pod) : CPStatus :=
  match p.status with
  | none => { name := p.name, nsName := ns, status := "Error",
              issues := ["Unable to get pod status"] }
  | some st =>
      if st.phase != "Running" then
        { name := p.name, nsName := ns, status := "Unhealthy",
          issues := ["Pod not running: " ++ st.phase] }
      else
        match st.containerStatuses with
        | none => { name := p.name, nsName := ns, status := "Healthy", issues := [] }
        | some cs =>
            cs.foldl checkContainer
              { name := p.name, nsName := ns, status := "Healthy", issues := [] }

/-- The Warning placeholder emitted when a namespace yields no pods at all
(lines 327-332). -/
def noPodsPlaceholder (ns : String) : CPStatus :=
  { name := "no-pods-in-" ++ ns, nsName := ns, status := "Warning",
    issues := ["No pods found in namespace " ++ ns] }

/-- The Warning placeholder emitted when a namespace yields pods but none of
them passes the component-name filter (lines 364-370). -/
def noControlPlanePodsPlaceholder (ns : String) : CPStatus :=
  { name := "no-control-plane-pods-in-" ++ ns, nsName := ns, status := "Warning",
    issues := ["No control plane pods found in namespace " ++ ns] }

/-- The pod loop of `check_control_plane_pods` (lines 335-362): skip pods
whose name contains no component substring; for each kept pod emit its
derived status; the flag records whether any pod was kept
(`found_control_plane_pods`). -/
def processPods (ns : String) : List Pod → List CPStatus × Bool
  | [] => ([], false)
  | p :: rest =>
      let (tail, found) := processPods ns rest
      if containsComponent p.name then (checkPodEntity ns p :: tail, true)
      else (tail, found)

/-- The per-namespace body of `check_control_plane_pods` (lines 322-370):
no pods at all gives the `no-pods` placeholder; otherwise the kept pods'
statuses, or the `no-control-plane-pods` placeholder when no pod was kept. -/
def processNamespace (podsIn : String → List Pod) (ns : String) : List CPStatus :=
  let pods := podsIn ns
  if pods.isEmpty then [noPodsPlaceholder ns]
  else
    let (kept, found) := processPods ns pods
    if found then kept else [noControlPlanePodsPlaceholder ns]

/-- `check_control_plane_pods` (lines 309-389), as a function of the
per-namespace pod fetch results (`_get_paginated_pods` never raises, so the
probe body's own except branch is unreachable; the `if not results` fallback
of lines 372-378 is kept). -/
def checkControlPlanePods (podsIn : String → List Pod) : List CPStatus :=
  let results := (criticalNamespaces.map (processNamespace podsIn)).flatten
  if results.isEmpty then
    [{ name := "unknown", nsName := "unknown", status := "Error",
       issues := ["No control plane pods found in any namespace"] }]
  else results

/-! ## Pagination and retry

The remote list API is modelled as a function from the global call index and
the continuation token passed on that call to either a page or a raised
exception (`String`). Call indices let a schedule express "this call fails,
the next succeeds". A page carries its items and the server's continuation
token (`metadata._continue`); Python truthiness of the token is `tokenTruthy`
(absent or empty means no more pages). -/

/-- One page of a paginated list response. -/
structure Page (α : Type) where
  items : List α
  cont : Option String
  deriving DecidableEq

/-- Python truthiness of `metadata._continue`: `None` and `''` are falsy. -/
def tokenTruthy : Option String → Bool
  | none => false
  | some t => t != ""

/-- A paginated API: call index and continuation token to outcome. -/
def PageApi (α : Type) : Type := Nat → Option String → Except String (Page α)

/-- The inner `while response.metadata._continue` loop of
`_get_paginated_response` (lines 133-136), one attempt. State: remaining
fuel (an upper bound on the pages left), the next call index `i`, the
current `kwargs['_continue']` entry `kwTok` (it is mutated before each call
and survives a raised exception), the previous response, and the items
accumulated so far. Returns the outcome together with the next call index
and the final `kwargs['_continue']`. -/
def contLoop {α : Type} (api : PageApi α) :
    Nat → Nat → Option String → Page α → List α →
    Except String (List α) × Nat × Option String
  | 0, i, kwTok, _, acc => (.ok acc, i, kwTok)
  | fuel + 1, i, kwTok, prev, acc =>
      if tokenTruthy prev.cont then
        match api i prev.cont with
        | .error e => (.error e, i + 1, prev.cont)
        | .ok pg => contLoop api fuel (i + 1) prev.cont pg (acc ++ pg.items)
      else (.ok acc, i, kwTok)

/-- One attempt of the `try` body of `_get_paginated_response`
(lines 126-138): fetch the first page with the current `kwargs` (including a
`_continue` entry left over from a previous failed attempt), reset the item
accumulator to that page's items, then follow continuations. -/
def attempt {α : Type} (api : PageApi α) (fuel i : Nat) (kwTok : Option String) :
    Except String (List α) × Nat × Option String :=
  match api i kwTok with
  | .error e => (.error e, i + 1, kwTok)
  | .ok pg => contLoop api fuel (i + 1) kwTok pg pg.items

/-- The `while retry_count < max_retries` loop of `_get_paginated_response`
(lines 125-148). `remaining` is `max_retries - retry_count`; `slept` counts
the executed `time.sleep(1)` calls (one after each failed attempt that is
followed by another attempt). When all attempts fail the helper raises
`Exception(f"Failed after {max_retries} attempts. Last error: {last_error}")`. -/
def retryLoop {α : Type} (api : PageApi α) (fuel : Nat) :
    Nat → Nat → Option String → Option String → Nat →
    Except String (List α) × Nat
  | 0, _, _, lastErr, slept =>
      (.error ("Failed after 3 attempts. Last error: " ++ lastErr.getD "None"), slept)
  | remaining + 1, i, kwTok, _, slept =>
      match attempt api fuel i kwTok with
      | (.ok items, _, _) => (.ok items, slept)
      | (.error e, i2, kwTok2) =>
          retryLoop api fuel remaining i2 kwTok2 (some e)
            (slept + if remaining > 0 then 1 else 0)

/-- `_get_paginated_response` (lines 119-148): up to `max_retries = 3`
attempts at the whole pagination loop, returning the fetched items or the
final raised exception, paired with the number of 1-second sleeps executed. -/
def getPaginatedResponse {α : Type} (api : PageApi α) (fuel : Nat) :
    Except String (List α) × Nat :=
  retryLoop api fuel 3 0 none none 0

/-- The inner `while pod_list.metadata._continue` loop of
`_get_paginated_pods` (lines 98-108), which stops early (`break`) when a
follow-up response has no items. -/
def podsContLoop {α : Type} (api : PageApi α) :
    Nat → Nat → Page α → List α → Except String (List α)
  | 0, _, _, acc => .ok acc
  | fuel + 1, i, prev, acc =>
      if tokenTruthy prev.cont then
        match api i prev.cont with
        | .error e => .error e
        | .ok pg =>
            if pg.items.isEmpty then .ok acc
            else podsContLoop api fuel (i + 1) pg (acc ++ pg.items)
      else .ok acc

/-- The `try` body of `_get_paginated_pods` (lines 81-110): first page, then
the continuation loop. -/
def getPaginatedPodsCore {α : Type} (api : PageApi α) (fuel : Nat) :
    Except String (List α) :=
  match api 0 none with
  | .error e => .error e
  | .ok pg => podsContLoop api fuel 1 pg pg.items

/-- `_get_paginated_pods` (lines 79-117): there is no retry, and both
`except` branches (lines 112-117) swallow the exception and return the empty
list. -/
def getPaginatedPods {α : Type} (api : PageApi α) (fuel : Nat) : List α :=
  match getPaginatedPodsCore api fuel with
  | .error _ => []
  | .ok items => items

/-- A failure-free server serving a fixed chain of pages: call 0 returns
`first`, call `j + 1` returns `rest[j]` (the token presented is ignored; a
well-formed client walks the chain in order anyway). -/
def apiOfChain {α : Type} (first : Page α) (rest : List (Page α)) : PageApi α :=
  fun i _ =>
    match i with
    | 0 => .ok first
    | j + 1 =>
        match rest[j]? with
        | some pg => .ok pg
        | none => .error "no such page"

/-- A valid continuation chain: every page but the last carries a truthy
continuation token and the last page's token is falsy. -/
def validChain {α : Type} : Page α → List (Page α) → Bool
  | pg, [] => !tokenTruthy pg.cont
  | pg, next :: rest => tokenTruthy pg.cont && validChain next rest

/-- A server schedule on which the second page request fails exactly once:
call 0 returns the first page (items `p1`, token `"t1"`), call 1 raises `e`,
and every later call returns the final page (items `p2`, no token). -/
def midFailApi {α : Type} (p1 p2 : List α) (e : String) : PageApi α :=
  fun i _ =>
    match i with
    | 0 => .ok { items := p1, cont := some "t1" }
    | 1 => .error e
    | _ + 2 => .ok { items := p2, cont := none }

/-- A server schedule on which every call raises, tagging the message with
the call index so the number of executed attempts is observable. -/
def alwaysFailApi (α : Type) (e : String) : PageApi α :=
  fun i _ => .error (e ++ toString i)

/-! ## Condition classification

Names for the branch guards of the condition loops, used to state what the
folds compute. -/

/-- Guard of the first branch of the node-condition loop: a `Ready`
condition whose status is not `'True'`. -/
def nodeReadyBad (c : Condition) : Bool :=
  c.type == "Ready" && c.status != "True"

/-- Guard of the second branch: a pressure condition whose status is
`'True'`. -/
def nodePressure (c : Condition) : Bool :=
  (c.type == "DiskPressure" || c.type == "MemoryPressure" || c.type == "PIDPressure")
    && c.status == "True"

/-- A node condition that fires either branch. -/
def nodeAdverse (c : Condition) : Bool :=
  nodeReadyBad c || nodePressure c

/-- The status string the firing branch writes. -/
def nodeLevelOf (c : Condition) : String :=
  if nodeReadyBad c then "Unhealthy" else "Warning"

/-- Guard of the `Degraded` branch of the operator-condition loop. -/
def opDegraded (c : Condition) : Bool :=
  c.type == "Degraded" && c.status == "True"

/-- Guard of the `Progressing` branch. -/
def opProgressing (c : Condition) : Bool :=
  c.type == "Progressing" && c.status == "True"

/-- Guard of the `Available` branch. -/
def opUnavailable (c : Condition) : Bool :=
  c.type == "Available" && c.status != "True"

/-- An operator condition that fires one of the three branches. -/
def opAdverse (c : Condition) : Bool :=
  opDegraded c || opProgressing c || opUnavailable c

/-- The status string the firing branch writes: `Progressing` writes
`'Warning'`, the other two write `'Unhealthy'`. -/
def opLevelOf (c : Condition) : String :=
  if opDegraded c then "Unhealthy"
  else if opProgressing c then "Warning"
  else "Unhealthy"

/-- The message the firing branch appends to `issues`. -/
def opMsgOf (c : Condition) : String :=
  if opDegraded c then c.message
  else if opProgressing c then "Operator is progressing: " ++ c.message
  else "Operator not available: " ++ c.message

theorem checkNodeCondition_readyBad (s : NodeStatus) (c : Condition)
    (h : nodeReadyBad c = true) :
    checkNodeCondition s c
      = { s with status := "Unhealthy",
                 issues := s.issues ++ ["Node not ready: " ++ c.message] } := by
  unfold checkNodeCondition
  rw [if_pos]
  exact h

theorem checkNodeCondition_pressure (s : NodeStatus) (c : Condition)
    (h1 : nodeReadyBad c = false) (h2 : nodePressure c = true) :
    checkNodeCondition s c
      = { s with status := "Warning",
                 warnings := s.warnings ++ [c.type ++ ": " ++ c.message] } := by
  unfold checkNodeCondition
  rw [if_neg, if_pos]
  · exact h2
  · simp [nodeReadyBad] at h1 ⊢
    exact h1

theorem checkNodeCondition_skip (s : NodeStatus) (c : Condition)
    (h : nodeAdverse c = false) :
    checkNodeCondition s c = s := by
  have h1 : nodeReadyBad c = false := by
    cases hb : nodeReadyBad c <;> simp [nodeAdverse, hb] at h ⊢
  have h2 : nodePressure c = false := by
    cases hb : nodePressure c <;> simp [nodeAdverse, hb] at h ⊢
  unfold checkNodeCondition
  rw [if_neg, if_neg]
  · simp [nodePressure] at h2 ⊢
    exact h2
  · simp [nodeReadyBad] at h1 ⊢
    exact h1

/-- What the condition fold of `check_master_nodes` computes, field by
field: the final status is written by the last adverse condition (the fold
overwrites it on every firing branch), `issues` collects the bad-`Ready`
messages in order, and `warnings` collects the pressure messages in order. -/
theorem foldNode_spec :
    ∀ (conds : List Condition) (s : NodeStatus),
      (conds.foldl checkNodeCondition s).status
          = (((conds.filter nodeAdverse).getLast?).map nodeLevelOf).getD s.status
      ∧ (conds.foldl checkNodeCondition s).issues
          = s.issues ++ (conds.filter nodeReadyBad).map
              (fun c => "Node not ready: " ++ c.message)
      ∧ (conds.foldl checkNodeCondition s).warnings
          = s.warnings ++ (conds.filter nodePressure).map
              (fun c => c.type ++ ": " ++ c.message)
      ∧ (conds.foldl checkNodeCondition s).name = s.name := by
  intro conds
  induction conds with
  | nil => intro s; simp
  | cons c rest ih =>
      intro s
      have hlast : ∀ (base : String), nodeAdverse c = true →
          ((((c :: rest.filter nodeAdverse)).getLast?).map nodeLevelOf).getD base
            = ((((rest.filter nodeAdverse)).getLast?).map nodeLevelOf).getD (nodeLevelOf c) := by
        intro base _
        cases hfr : rest.filter nodeAdverse with
        | nil => simp
        | cons d fr =>
            have hx : ∃ x, (d :: fr).getLast? = some x := by
              cases hy : (d :: fr).getLast? with
              | none => simp [List.getLast?_eq_none_iff] at hy
              | some x => exact ⟨x, rfl⟩
            obtain ⟨x, hx⟩ := hx
            rw [List.getLast?_cons_cons, hx]
            rfl
      by_cases hrb : nodeReadyBad c = true
      · have hadv : nodeAdverse c = true := by simp [nodeAdverse, hrb]
        have hpr : nodePressure c = false := by
          simp [nodeReadyBad] at hrb
          simp [nodePressure, hrb.1]
        have hstep := checkNodeCondition_readyBad s c hrb
        have hlev : nodeLevelOf c = "Unhealthy" := by simp [nodeLevelOf, hrb]
        obtain ⟨ihs, ihi, ihw, ihn⟩ := ih (checkNodeCondition s c)
        refine ⟨?_, ?_, ?_, ?_⟩
        · rw [List.foldl_cons, ihs, List.filter_cons, if_pos hadv, hlast _ hadv, hstep, hlev]
        · rw [List.foldl_cons, ihi, List.filter_cons, if_pos hrb, hstep]
          simp [List.append_assoc]
        · rw [List.foldl_cons, ihw, List.filter_cons, if_neg (by simp [hpr]), hstep]
        · rw [List.foldl_cons, ihn, hstep]
      · have hrb' : nodeReadyBad c = false := by
          cases hb : nodeReadyBad c
          · rfl
          · exact absurd hb hrb
        by_cases hprb : nodePressure c = true
        · have hadv : nodeAdverse c = true := by simp [nodeAdverse, hprb]
          have hstep := checkNodeCondition_pressure s c hrb' hprb
          have hlev : nodeLevelOf c = "Warning" := by simp [nodeLevelOf, hrb']
          obtain ⟨ihs, ihi, ihw, ihn⟩ := ih (checkNodeCondition s c)
          refine ⟨?_, ?_, ?_, ?_⟩
          · rw [List.foldl_cons, ihs, List.filter_cons, if_pos hadv, hlast _ hadv, hstep, hlev]
          · rw [List.foldl_cons, ihi, List.filter_cons, if_neg (by simp [hrb']), hstep]
          · rw [List.foldl_cons, ihw, List.filter_cons, if_pos hprb, hstep]
            simp [List.append_assoc]
          · rw [List.foldl_cons, ihn, hstep]
        · have hpr : nodePressure c = false := by
            cases hb : nodePressure c
            · rfl
            · exact absurd hb hprb
          have hadv : nodeAdverse c = false := by simp [nodeAdverse, hrb', hpr]
          have hstep := checkNodeCondition_skip s c hadv
          obtain ⟨ihs, ihi, ihw, ihn⟩ := ih (checkNodeCondition s c)
          refine ⟨?_, ?_, ?_, ?_⟩
          · rw [List.foldl_cons, ihs, List.filter_cons, if_neg (by simp [hadv]), hstep]
          · rw [List.foldl_cons, ihi, List.filter_cons, if_neg (by simp [hrb']), hstep]
          · rw [List.foldl_cons, ihw, List.filter_cons, if_neg (by simp [hpr]), hstep]
          · rw [List.foldl_cons, ihn, hstep]

theorem checkOperatorCondition_adverse (s : OperatorStatus) (c : Condition)
    (h : opAdverse c = true) :
    checkOperatorCondition s c
      = { s with status := opLevelOf c, issues := s.issues ++ [opMsgOf c] } := by
  by_cases hd : opDegraded c = true
  · have hl : opLevelOf c = "Unhealthy" := by simp [opLevelOf, hd]
    have hm : opMsgOf c = c.message := by simp [opMsgOf, hd]
    rw [hl, hm]
    unfold checkOperatorCondition
    rw [if_pos]
    exact hd
  · have hd' : opDegraded c = false := by
      cases hb : opDegraded c
      · rfl
      · exact absurd hb hd
    by_cases hp : opProgressing c = true
    · have hl : opLevelOf c = "Warning" := by simp [opLevelOf, hd', hp]
      have hm : opMsgOf c = "Operator is progressing: " ++ c.message := by
        simp [opMsgOf, hd', hp]
      rw [hl, hm]
      unfold checkOperatorCondition
      rw [if_neg, if_pos]
      · exact hp
      · simp [opDegraded] at hd' ⊢
        exact hd'
    · have hp' : opProgressing c = false := by
        cases hb : opProgressing c
        · rfl
        · exact absurd hb hp
      have hu : opUnavailable c = true := by
        cases hb : opUnavailable c
        · simp [opAdverse, hd', hp', hb] at h
        · rfl
      have hl : opLevelOf c = "Unhealthy" := by simp [opLevelOf, hd', hp']
      have hm : opMsgOf c = "Operator not available: " ++ c.message := by
        simp [opMsgOf, hd', hp']
      rw [hl, hm]
      unfold checkOperatorCondition
      rw [if_neg, if_neg, if_pos]
      · exact hu
      · simp [opProgressing] at hp' ⊢
        exact hp'
      · simp [opDegraded] at hd' ⊢
        exact hd'

theorem checkOperatorCondition_skip (s : OperatorStatus) (c : Condition)
    (h : opAdverse c = false) :
    checkOperatorCondition s c = s := by
  have hd : opDegraded c = false := by
    cases hb : opDegraded c <;> simp [opAdverse, hb] at h ⊢
  have hp : opProgressing c = false := by
    cases hb : opProgressing c <;> simp [opAdverse, hb] at h ⊢
  have hu : opUnavailable c = false := by
    cases hb : opUnavailable c <;> simp [opAdverse, hb] at h ⊢
  unfold checkOperatorCondition
  rw [if_neg, if_neg, if_neg]
  · simp [opUnavailable] at hu ⊢
    exact hu
  · simp [opProgressing] at hp ⊢
    exact hp
  · simp [opDegraded] at hd ⊢
    exact hd

/-- What the condition fold of `check_critical_operators` computes: the
final status is written by the last adverse condition (each firing branch
overwrites it), while `issues` accumulates one message per adverse
condition, in list order — no message is lost. -/
theorem foldOperator_spec :
    ∀ (conds : List Condition) (s : OperatorStatus),
      (conds.foldl checkOperatorCondition s).status
          = (((conds.filter opAdverse).getLast?).map opLevelOf).getD s.status
      ∧ (conds.foldl checkOperatorCondition s).issues
          = s.issues ++ (conds.filter opAdverse).map opMsgOf
      ∧ (conds.foldl checkOperatorCondition s).name = s.name := by
  intro conds
  induction conds with
  | nil => intro s; simp
  | cons c rest ih =>
      intro s
      obtain ⟨ihs, ihi, ihn⟩ := ih (checkOperatorCondition s c)
      by_cases hadv : opAdverse c = true
      · have hlast : ∀ (base : String),
            ((((c :: rest.filter opAdverse)).getLast?).map opLevelOf).getD base
              = ((((rest.filter opAdverse)).getLast?).map opLevelOf).getD (opLevelOf c) := by
          intro base
          cases hfr : rest.filter opAdverse with
          | nil => simp
          | cons d fr =>
              have hx : ∃ x, (d :: fr).getLast? = some x := by
                cases hy : (d :: fr).getLast? with
                | none => simp [List.getLast?_eq_none_iff] at hy
                | some x => exact ⟨x, rfl⟩
              obtain ⟨x, hx⟩ := hx
              rw [List.getLast?_cons_cons, hx]
              rfl
        have hstep := checkOperatorCondition_adverse s c hadv
        refine ⟨?_, ?_, ?_⟩
        · rw [List.foldl_cons, ihs, List.filter_cons, if_pos hadv, hlast, hstep]
        · rw [List.foldl_cons, ihi, List.filter_cons, if_pos hadv, hstep]
          simp [List.append_assoc]
        · rw [List.foldl_cons, ihn, hstep]
      · have hadv' : opAdverse c = false := by
          cases hb : opAdverse c
          · rfl
          · exact absurd hb hadv
        have hstep := checkOperatorCondition_skip s c hadv'
        refine ⟨?_, ?_, ?_⟩
        · rw [List.foldl_cons, ihs, List.filter_cons, if_neg (by simp [hadv']), hstep]
        · rw [List.foldl_cons, ihi, List.filter_cons, if_neg (by simp [hadv']), hstep]
        · rw [List.foldl_cons, ihn, hstep]

/-! ## Claims about the Master Nodes probe -/

/-- C1 (amended): for every master node, every bad `Ready` condition's
message is present in the node's issues list (in list order), but the node's
final level is NOT the maximum severity across conditions: it is the level
written by the last adverse condition in the list (`Unhealthy` when that is
a bad `Ready` condition, `Warning` when it is a true pressure condition),
because each firing branch of the loop overwrites the status. -/
theorem checkNode_ready_message_and_last_adverse_level :
    ∀ (n : Node),
      (∀ c, c ∈ n.conditions → nodeReadyBad c = true →
          ("Node not ready: " ++ c.message) ∈ (checkNode n).issues)
      ∧ (checkNode n).status
          = (((n.conditions.filter nodeAdverse).getLast?).map nodeLevelOf).getD "Healthy" := by
  intro n
  obtain ⟨hs, hi, hw, hn⟩ := foldNode_spec n.conditions
    { name := n.name, status := "Healthy", issues := [], warnings := [] }
  constructor
  · intro c hc hrb
    have hmem : c ∈ n.conditions.filter nodeReadyBad := List.mem_filter.mpr ⟨hc, hrb⟩
    have : ("Node not ready: " ++ c.message)
        ∈ (n.conditions.filter nodeReadyBad).map (fun c => "Node not ready: " ++ c.message) :=
      List.mem_map.mpr ⟨c, hmem, rfl⟩
    rw [checkNode, hi]
    simpa using this
  · rw [checkNode, hs]

/-- C1 witness: the single-condition node with a bad `Ready` condition has
the Ready message in its issues. -/
theorem checkNode_ready_message_witness :
    ("Node not ready: down")
      ∈ (checkNode { name := "m", conditions :=
          [{ type := "Ready", status := "False", message := "down" }] }).issues :=
  (checkNode_ready_message_and_last_adverse_level
    { name := "m", conditions := [{ type := "Ready", status := "False", message := "down" }] }).1
    { type := "Ready", status := "False", message := "down" } (by decide) (by decide)

/-- C1 counterexample: a node whose condition list is a bad `Ready`
condition followed by `DiskPressure=True` ends at level `Warning`, not
`Unhealthy` (the Ready message is still in issues): the level depends on
the order of the conditions and is not the maximum severity. -/
theorem checkNode_order_dependent_level_cex :
    checkNode { name := "m0", conditions :=
        [{ type := "Ready", status := "False", message := "kubelet down" },
         { type := "DiskPressure", status := "True", message := "disk full" }] }
      = { name := "m0", status := "Warning",
          issues := ["Node not ready: kubelet down"],
          warnings := ["DiskPressure: disk full"] }
    ∧ ("Warning" : String) ≠ "Unhealthy" :=
  ⟨rfl, by decide⟩

/-- C4 (amended): when the node query succeeds and returns zero master
nodes, `check_master_nodes` returns the empty collection — absence is
signalled only by a console message, and no Warning placeholder entity and
no Error entity is put into the result. -/
theorem checkMasterNodes_empty_returns_empty :
    checkMasterNodes (.ok []) = [] := rfl

/-- C4 counterexample: on an empty master-node list the probe's result has
zero entities, not exactly one placeholder entity. -/
theorem checkMasterNodes_empty_no_placeholder_cex :
    (checkMasterNodes (.ok [])).length = 0 ∧ (0 : Nat) ≠ 1 :=
  ⟨rfl, by decide⟩

/-! ## Claims about the Critical Operators probe -/

/-- C3 (amended): for every cluster operator, every adverse condition
(`Degraded=True`, `Progressing=True`, `Available != 'True'`) contributes its
message to the operator's issues list, in list order and with none dropped;
but the operator's level is NOT the highest severity observed: it is the
level written by the last adverse condition in the list, because each firing
branch overwrites the status. -/
theorem checkOperator_keeps_messages_level_last_adverse :
    ∀ (nm : String) (conds : List Condition),
      (checkOperator { name := nm, conditions := some conds }).issues
          = (conds.filter opAdverse).map opMsgOf
      ∧ (checkOperator { name := nm, conditions := some conds }).status
          = (((conds.filter opAdverse).getLast?).map opLevelOf).getD "Healthy" := by
  intro nm conds
  obtain ⟨hs, hi, hn⟩ := foldOperator_spec conds
    { name := nm, status := "Healthy", issues := [] }
  constructor
  · rw [checkOperator, hi]
    simp
  · rw [checkOperator, hs]

/-- C3 counterexample: an operator with `Degraded=True` followed by
`Progressing=True` is reported at level `Warning`, not at the highest
severity `Unhealthy`, although both messages are kept. -/
theorem checkOperator_order_dependent_level_cex :
    checkCriticalOperators (.ok
        [{ name := "etcd", conditions := some
            [{ type := "Degraded", status := "True", message := "raft instability" },
             { type := "Progressing", status := "True", message := "rolling out" }] }])
      = [{ name := "etcd", status := "Warning",
           issues := ["raft instability", "Operator is progressing: rolling out"] }]
    ∧ ("Warning" : String) ≠ "Unhealthy" :=
  ⟨rfl, by decide⟩

/-! ## Claims about the Consensus-Store (etcd) Health probe -/

/-- C7 (confirmed): whenever the etcd operator is found and its condition
scan passes (no `Degraded=True` and no `Available != 'True'` condition fires,
which also covers an operator without a conditions attribute), but the pod
query yields zero etcd pods, `check_etcd_health` returns exactly the
`Error` record whose message indicates that no pods were found — the status
is neither `Unhealthy` nor `Healthy`. -/
theorem checkEtcdHealth_no_pods_is_error :
    ∀ (op : ClusterOperator) (rest : List ClusterOperator),
      (∀ conds, op.conditions = some conds → etcdOperatorVerdict conds = none) →
      checkEtcdHealth (op :: rest) []
          = { status := "Error", issues := [],
              error := some "No etcd pods found", message := none }
      ∧ (checkEtcdHealth (op :: rest) []).status ≠ "Unhealthy"
      ∧ (checkEtcdHealth (op :: rest) []).status ≠ "Healthy" := by
  intro op rest hpass
  have h : checkEtcdHealth (op :: rest) []
      = { status := "Error", issues := [],
          error := some "No etcd pods found", message := none } := by
    unfold checkEtcdHealth
    cases hc : op.conditions with
    | none => simp [hc]
    | some conds => simp [hc, hpass conds hc]
  refine ⟨h, ?_, ?_⟩
  · rw [h]; decide
  · rw [h]; decide

/-- C7 witness: an etcd operator with only `Available=True` and an empty
pod list gives the `No etcd pods found` Error. -/
theorem checkEtcdHealth_no_pods_is_error_witness :
    checkEtcdHealth
        [{ name := "etcd", conditions := some
            [{ type := "Available", status := "True", message := "ok" }] }] []
      = { status := "Error", issues := [],
          error := some "No etcd pods found", message := none } :=
  (checkEtcdHealth_no_pods_is_error
    { name := "etcd", conditions := some
        [{ type := "Available", status := "True", message := "ok" }] } []
    (by intro conds hc; cases hc; rfl)).1

/-! ## Pagination lemmas -/

theorem apiOfChain_succ {α : Type} (first : Page α) (rest : List (Page α))
    (j : Nat) (hj : j < rest.length) (tok : Option String) :
    apiOfChain first rest (1 + j) tok = .ok (rest.get ⟨j, hj⟩) := by
  rw [show 1 + j = j + 1 by omega]
  simp [apiOfChain, List.getElem?_eq_getElem hj]

/-- Walking a valid chain of pages, the continuation loop of
`_get_paginated_response` appends every page's items in order. -/
theorem contLoop_chain {α : Type} (api : PageApi α) :
    ∀ (rest : List (Page α)) (fuel i : Nat) (kwTok : Option String) (prev : Page α)
      (acc : List α),
      validChain prev rest = true → rest.length ≤ fuel →
      (∀ (j : Nat) (hj : j < rest.length) (tok : Option String),
          api (i + j) tok = .ok (rest.get ⟨j, hj⟩)) →
      (contLoop api fuel i kwTok prev acc).1
        = .ok (acc ++ (rest.map Page.items).flatten) := by
  intro rest
  induction rest with
  | nil =>
      intro fuel i kwTok prev acc hvc _ _
      have ht : tokenTruthy prev.cont = false := by
        simpa [validChain] using hvc
      cases fuel with
      | zero => simp [contLoop]
      | succ f => simp [contLoop, ht]
  | cons pg rest ih =>
      intro fuel i kwTok prev acc hvc hlen hapi
      have hvc2 : tokenTruthy prev.cont = true ∧ validChain pg rest = true := by
        simpa [validChain, Bool.and_eq_true] using hvc
      cases fuel with
      | zero => simp at hlen
      | succ f =>
          have h0 : api i prev.cont = .ok pg := by
            have h := hapi 0 (by simp) prev.cont
            simpa using h
          have hap : ∀ (j : Nat) (hj : j < rest.length) (tok : Option String),
              api (i + 1 + j) tok = .ok (rest.get ⟨j, hj⟩) := by
            intro j hj tok
            have h := hapi (j + 1) (by simp; omega) tok
            rw [show i + (j + 1) = i + 1 + j by omega] at h
            simpa using h
          have hrec := ih f (i + 1) prev.cont pg (acc ++ pg.items) hvc2.2
            (by simp at hlen; omega) hap
          simp only [contLoop, hvc2.1, if_true, h0]
          rw [hrec]
          simp

/-- Walking a valid chain whose follow-up pages are all non-empty, the
continuation loop of `_get_paginated_pods` appends every page's items in
order (a follow-up page without items would end the loop early). -/
theorem podsContLoop_chain {α : Type} (api : PageApi α) :
    ∀ (rest : List (Page α)) (fuel i : Nat) (prev : Page α) (acc : List α),
      validChain prev rest = true → rest.length ≤ fuel →
      (∀ (j : Nat) (hj : j < rest.length) (tok : Option String),
          api (i + j) tok = .ok (rest.get ⟨j, hj⟩)) →
      (∀ pg ∈ rest, pg.items ≠ []) →
      podsContLoop api fuel i prev acc
        = .ok (acc ++ (rest.map Page.items).flatten) := by
  intro rest
  induction rest with
  | nil =>
      intro fuel i prev acc hvc _ _ _
      have ht : tokenTruthy prev.cont = false := by
        simpa [validChain] using hvc
      cases fuel with
      | zero => simp [podsContLoop]
      | succ f => simp [podsContLoop, ht]
  | cons pg rest ih =>
      intro fuel i prev acc hvc hlen hapi hne
      have hvc2 : tokenTruthy prev.cont = true ∧ validChain pg rest = true := by
        simpa [validChain, Bool.and_eq_true] using hvc
      cases fuel with
      | zero => simp at hlen
      | succ f =>
          have h0 : api i prev.cont = .ok pg := by
            have h := hapi 0 (by simp) prev.cont
            simpa using h
          have hpgne : pg.items.isEmpty = false := by
            have := hne pg (by simp)
            simpa [List.isEmpty_iff] using this
          have hap : ∀ (j : Nat) (hj : j < rest.length) (tok : Option String),
              api (i + 1 + j) tok = .ok (rest.get ⟨j, hj⟩) := by
            intro j hj tok
            have h := hapi (j + 1) (by simp; omega) tok
            rw [show i + (j + 1) = i + 1 + j by omega] at h
            simpa using h
          have hrec := ih f (i + 1) pg (acc ++ pg.items) hvc2.2
            (by simp at hlen; omega) hap (fun q hq => hne q (by simp [hq]))
          simp only [podsContLoop, hvc2.1, if_true, h0, hpgne]
          rw [if_neg (by simp [hpgne]), hrec]
          simp

/-! ## Claims about the Paginated Fetcher -/

/-- C6 (amended): for any valid chain of continuation tokens,
`_get_paginated_response` returns exactly the concatenation of all pages'
items in server order (in particular an empty first page yields the empty
sequence, not an error); `_get_paginated_pods` does the same provided every
follow-up page is non-empty — its loop treats a page without items as the
end of the data even when that page carries a continuation token. -/
theorem paginated_fetch_concatenates_chain :
    ∀ {α : Type} (first : Page α) (rest : List (Page α)) (fuel : Nat),
      validChain first rest = true → rest.length ≤ fuel →
      ((getPaginatedResponse (apiOfChain first rest) fuel).1
          = .ok (first.items ++ (rest.map Page.items).flatten)
       ∧ ((∀ pg ∈ rest, pg.items ≠ []) →
          getPaginatedPods (apiOfChain first rest) fuel
            = first.items ++ (rest.map Page.items).flatten)) := by
  intro α first rest fuel hvc hlen
  have hapi : ∀ (j : Nat) (hj : j < rest.length) (tok : Option String),
      apiOfChain first rest (1 + j) tok = .ok (rest.get ⟨j, hj⟩) :=
    fun j hj tok => apiOfChain_succ first rest j hj tok
  have h0 : apiOfChain first rest 0 none = .ok first := rfl
  constructor
  · have h := contLoop_chain (apiOfChain first rest) rest fuel 1 none first
      first.items hvc hlen hapi
    rcases hcl : contLoop (apiOfChain first rest) fuel 1 none first first.items
      with ⟨res, i2, tok2⟩
    rw [hcl] at h
    simp only at h
    subst h
    simp only [getPaginatedResponse, retryLoop, attempt, h0, hcl]
  · intro hne
    have h := podsContLoop_chain (apiOfChain first rest) rest fuel 1 first
      first.items hvc hlen hapi hne
    simp only [getPaginatedPods, getPaginatedPodsCore, h0, h]

/-- C6 witness: a two-page chain is concatenated in order by
`_get_paginated_response`. -/
theorem paginated_fetch_concatenates_chain_witness :
    (getPaginatedResponse (apiOfChain ({ items := ["a"], cont := some "t1" } : Page String)
        [{ items := ["b"], cont := none }]) 1).1
      = .ok ((["a"] : List String)
          ++ ([({ items := ["b"], cont := none } : Page String)].map Page.items).flatten) :=
  (paginated_fetch_concatenates_chain
    { items := ["a"], cont := some "t1" } [{ items := ["b"], cont := none }] 1
    (by decide) (by decide)).1

/-- C6 counterexample: on the valid three-page chain
`["a"] / [] / ["b"]` (every page within the size bound, middle page empty
but carrying a continuation token), `_get_paginated_pods` stops at the empty
middle page and returns `["a"]`, not the concatenation `["a", "b"]` of all
pages. -/
theorem podsFetcher_empty_middle_page_cex :
    validChain ({ items := ["a"], cont := some "t1" } : Page String)
        [{ items := [], cont := some "t2" }, { items := ["b"], cont := none }] = true
    ∧ getPaginatedPods (apiOfChain ({ items := ["a"], cont := some "t1" } : Page String)
        [{ items := [], cont := some "t2" }, { items := ["b"], cont := none }]) 5 = ["a"]
    ∧ (["a"] : List String) ≠ ["a", "b"] :=
  ⟨rfl, rfl, by decide⟩

/-- C2 (amended): retries in `_get_paginated_response` are not applied per
page with the accumulated items kept: the retry loop wraps the whole fetch,
the item accumulator is reset at the start of each attempt, and the
`_continue` entry written into `kwargs` before the failing request survives
into the retry — so when the request for the page after `p1` fails once and
then succeeds, the fetch returns only the items from the failure point
onward (`p2`), discarding the already-fetched `p1`. -/
theorem getPaginatedResponse_retry_resumes_from_stale_token :
    ∀ {α : Type} (p1 p2 : List α) (e : String) (fuel : Nat),
      (getPaginatedResponse (midFailApi p1 p2 e) (fuel + 1)).1 = .ok p2 := by
  intro α p1 p2 e fuel
  rfl

/-- C2 counterexample: page 1 succeeds with items `["a"]`, the request for
page 2 fails once and then succeeds with items `["b"]` — well within the
3-attempt bound — yet the fetch returns `["b"]`: the items of the earlier,
already-successful page are discarded, not concatenated exactly once. -/
theorem getPaginatedResponse_retry_drops_earlier_pages_cex :
    (getPaginatedResponse (midFailApi ["a"] ["b"] "boom") 5).1 = .ok ["b"]
    ∧ (["b"] : List String) ≠ ["a", "b"] :=
  ⟨rfl, by decide⟩

/-- C5 (amended): `_get_paginated_response` does retry a failed request up
to the fixed bound of 3 total attempts with a 1-second sleep between
attempts, and after exhausting them raises an exception carrying the last
cause. But the probes fetch pods through `_get_paginated_pods`, which does
not retry and swallows any failure into an empty list; the etcd probe then
surfaces the empty list as an Error (`No etcd pods found`), while the
Control-Plane Pods probe surfaces it as a Warning-level placeholder — so a
fetch failure is not surfaced as an Error-level result by every probe. -/
theorem retry_exhaustion_and_probe_surfacing :
    ∀ (e : String) (fuel : Nat) (api : PageApi Pod),
      getPaginatedResponse (alwaysFailApi String e) fuel
          = (.error ("Failed after 3 attempts. Last error: " ++ (e ++ "2")), 2)
      ∧ (api 0 none = .error e → getPaginatedPods api fuel = [])
      ∧ checkEtcdHealth
            [{ name := "etcd", conditions := some
                [{ type := "Available", status := "True", message := "ok" }] }] []
          = { status := "Error", issues := [],
              error := some "No etcd pods found", message := none }
      ∧ noPodsPlaceholder "openshift-etcd" ∈ checkControlPlanePods (fun _ => [])
      ∧ (noPodsPlaceholder "openshift-etcd").status = "Warning" := by
  intro e fuel api
  refine ⟨rfl, ?_, rfl, by decide, rfl⟩
  intro h
  simp only [getPaginatedPods, getPaginatedPodsCore, h]

/-- C5 witness: a pod fetch whose first call raises is swallowed into the
empty list. -/
theorem retry_exhaustion_and_probe_surfacing_witness :
    getPaginatedPods (fun _ _ => (.error "boom" : Except String (Page Pod))) 4 = [] :=
  (retry_exhaustion_and_probe_surfacing "boom" 4 (fun _ _ => .error "boom")).2.1 rfl

/-- C5 counterexample: a pod-list fetch that always raises is converted by
`_get_paginated_pods` into a silently empty collection, and the
Control-Plane Pods probe turns it into a Warning-level placeholder, not an
Error-level result. -/
theorem probe_fetch_failure_not_error_cex :
    getPaginatedPods (fun _ _ => (.error "API exploded" : Except String (Page Pod))) 3 = []
    ∧ (checkControlPlanePods (fun _ =>
          getPaginatedPods (fun _ _ => (.error "API exploded" : Except String (Page Pod))) 3)).head?
        = some (noPodsPlaceholder "openshift-etcd")
    ∧ (noPodsPlaceholder "openshift-etcd").status = "Warning"
    ∧ ("Warning" : String) ≠ "Error" :=
  ⟨rfl, rfl, rfl, by decide⟩

/-! ## Lemmas about the Control-Plane Pods probe -/

/-- The container fold keeps the status in {Healthy, Unhealthy}, keeps
issues non-empty alongside an Unhealthy status, and fixes the namespace
field. -/
theorem foldContainer_facts :
    ∀ (cs : List ContainerStatus) (s : CPStatus),
      (s.status = "Healthy" ∨ s.status = "Unhealthy") →
      (s.status = "Unhealthy" → s.issues ≠ []) →
      ((cs.foldl checkContainer s).status = "Healthy"
          ∨ (cs.foldl checkContainer s).status = "Unhealthy")
      ∧ ((cs.foldl checkContainer s).status = "Unhealthy"
          → (cs.foldl checkContainer s).issues ≠ [])
      ∧ (cs.foldl checkContainer s).nsName = s.nsName := by
  intro cs
  induction cs with
  | nil => intro s hs hi; exact ⟨hs, hi, rfl⟩
  | cons c rest ih =>
      intro s hs hi
      have hstep :
          ((checkContainer s c).status = "Healthy" ∨ (checkContainer s c).status = "Unhealthy")
          ∧ ((checkContainer s c).status = "Unhealthy" → (checkContainer s c).issues ≠ [])
          ∧ (checkContainer s c).nsName = s.nsName := by
        unfold checkContainer
        by_cases hr : c.ready
        · simp [hr]
          exact ⟨hs, hi⟩
        · simp [hr]
      have h := ih (checkContainer s c) hstep.1 hstep.2.1
      exact ⟨h.1, h.2.1, h.2.2.trans hstep.2.2⟩

/-- The per-pod entity's status is one of Healthy/Unhealthy/Error (never
Warning), its issues are non-empty when it is Unhealthy or Error, and its
namespace field is the processed namespace. -/
theorem checkPodEntity_facts (ns : String) (p : Pod) :
    ((checkPodEntity ns p).status = "Healthy"
        ∨ (checkPodEntity ns p).status = "Unhealthy"
        ∨ (checkPodEntity ns p).status = "Error")
    ∧ ((checkPodEntity ns p).status = "Unhealthy" ∨ (checkPodEntity ns p).status = "Error"
        → (checkPodEntity ns p).issues ≠ [])
    ∧ (checkPodEntity ns p).status ≠ "Warning" := by
  have hmain :
      ((checkPodEntity ns p).status = "Healthy"
          ∨ (checkPodEntity ns p).status = "Unhealthy"
          ∨ (checkPodEntity ns p).status = "Error")
      ∧ ((checkPodEntity ns p).status = "Unhealthy" ∨ (checkPodEntity ns p).status = "Error"
          → (checkPodEntity ns p).issues ≠ []) := by
    rcases hst : p.status with _ | st
    · have heq : checkPodEntity ns p
          = { name := p.name, nsName := ns, status := "Error",
              issues := ["Unable to get pod status"] } := by
        simp [checkPodEntity, hst]
      rw [heq]
      exact ⟨Or.inr (Or.inr rfl), fun _ => by simp⟩
    · by_cases hph : (st.phase != "Running") = true
      · have heq : checkPodEntity ns p
            = { name := p.name, nsName := ns, status := "Unhealthy",
                issues := ["Pod not running: " ++ st.phase] } := by
          simp [checkPodEntity, hst, hph]
        rw [heq]
        exact ⟨Or.inr (Or.inl rfl), fun _ => by simp⟩
      · rcases hcs : st.containerStatuses with _ | cs
        · have heq : checkPodEntity ns p
              = { name := p.name, nsName := ns, status := "Healthy", issues := [] } := by
            simp [checkPodEntity, hst, hph, hcs]
          rw [heq]
          refine ⟨Or.inl rfl, fun h => ?_⟩
          rcases h with h | h <;> simp at h
        · have heq : checkPodEntity ns p
              = cs.foldl checkContainer
                  { name := p.name, nsName := ns, status := "Healthy", issues := [] } := by
            simp [checkPodEntity, hst, hph, hcs]
          rw [heq]
          have h := foldContainer_facts cs
            { name := p.name, nsName := ns, status := "Healthy", issues := [] }
            (Or.inl rfl) (by intro h; simp at h)
          refine ⟨?_, fun hh => ?_⟩
          · rcases h.1 with h1 | h1
            · exact Or.inl h1
            · exact Or.inr (Or.inl h1)
          · rcases hh with hh | hh
            · exact h.2.1 hh
            · rcases h.1 with h1 | h1 <;> rw [h1] at hh <;> simp at hh
  refine ⟨hmain.1, hmain.2, ?_⟩
  rcases hmain.1 with h | h | h <;> rw [h] <;> decide

/-- The pod loop returns the kept pods' statuses (in order) and whether any
pod passed the name filter. -/
theorem processPods_eq (ns : String) :
    ∀ (l : List Pod),
      processPods ns l
        = ((l.filter (fun p => containsComponent p.name)).map (checkPodEntity ns),
           l.any (fun p => containsComponent p.name)) := by
  intro l
  induction l with
  | nil => rfl
  | cons p rest ih =>
      simp only [processPods, ih, List.filter_cons, List.any_cons]
      by_cases h : containsComponent p.name
      · simp [h]
      · simp [h]

/-- The per-namespace body, written with the loop replaced by filter/map. -/
theorem processNamespace_eq (podsIn : String → List Pod) (ns : String) :
    processNamespace podsIn ns
      = if (podsIn ns).isEmpty then [noPodsPlaceholder ns]
        else if (podsIn ns).any (fun p => containsComponent p.name) then
          ((podsIn ns).filter (fun p => containsComponent p.name)).map (checkPodEntity ns)
        else [noControlPlanePodsPlaceholder ns] := by
  unfold processNamespace
  simp only [processPods_eq]

/-- Every namespace contributes at least one entity. -/
theorem processNamespace_ne_nil (podsIn : String → List Pod) (ns : String) :
    processNamespace podsIn ns ≠ [] := by
  rw [processNamespace_eq]
  by_cases he : (podsIn ns).isEmpty
  · simp [he]
  · by_cases ha : (podsIn ns).any (fun p => containsComponent p.name)
    · rw [if_neg he, if_pos ha]
      obtain ⟨p, hp, hpc⟩ := List.any_eq_true.mp ha
      intro hnil
      rw [List.map_eq_nil_iff] at hnil
      exact (List.filter_eq_nil_iff.mp hnil p hp) hpc
    · simp [he, ha]

/-- The final `if not results` fallback of `check_control_plane_pods` is
unreachable: the result is always the concatenation of the per-namespace
outputs. -/
theorem checkControlPlanePods_eq (podsIn : String → List Pod) :
    checkControlPlanePods podsIn
      = (criticalNamespaces.map (processNamespace podsIn)).flatten := by
  unfold checkControlPlanePods
  rw [if_neg]
  intro he
  rw [List.isEmpty_iff, List.flatten_eq_nil_iff] at he
  exact processNamespace_ne_nil podsIn "openshift-etcd"
    (he (processNamespace podsIn "openshift-etcd")
      (List.mem_map.mpr ⟨"openshift-etcd", by simp [criticalNamespaces], rfl⟩))

theorem mem_checkControlPlanePods (podsIn : String → List Pod) (x : CPStatus) :
    x ∈ checkControlPlanePods podsIn
      ↔ ∃ ns, ns ∈ criticalNamespaces ∧ x ∈ processNamespace podsIn ns := by
  rw [checkControlPlanePods_eq, List.mem_flatten]
  constructor
  · rintro ⟨l, hl, hx⟩
    obtain ⟨ns, hns, rfl⟩ := List.mem_map.mp hl
    exact ⟨ns, hns, hx⟩
  · rintro ⟨ns, hns, hx⟩
    exact ⟨processNamespace podsIn ns, List.mem_map.mpr ⟨ns, hns, rfl⟩, hx⟩

/-- The two placeholder kinds are distinct records, whatever namespaces they
are built from. -/
theorem noPods_ne_noCP (ns ns2 : String) :
    noPodsPlaceholder ns ≠ noControlPlanePodsPlaceholder ns2 := by
  intro h
  have hns : ns = ns2 := congrArg CPStatus.nsName h
  subst hns
  have hname : "no-pods-in-" ++ ns = "no-control-plane-pods-in-" ++ ns :=
    congrArg CPStatus.name h
  have hlen := congrArg String.length hname
  rw [String.length_append, String.length_append] at hlen
  have h1 : ("no-pods-in-" : String).length = 11 := rfl
  have h2 : ("no-control-plane-pods-in-" : String).length = 25 := rfl
  omega

theorem noPods_mem_iff (podsIn : String → List Pod) (ns : String) :
    noPodsPlaceholder ns ∈ checkControlPlanePods podsIn
      ↔ ns ∈ criticalNamespaces ∧ podsIn ns = [] := by
  rw [mem_checkControlPlanePods]
  constructor
  · rintro ⟨ns2, hns2, hmem⟩
    rw [processNamespace_eq] at hmem
    by_cases he : (podsIn ns2).isEmpty
    · rw [if_pos he] at hmem
      have heq : noPodsPlaceholder ns = noPodsPlaceholder ns2 := by simpa using hmem
      have hnseq : ns = ns2 := congrArg CPStatus.nsName heq
      subst hnseq
      exact ⟨hns2, List.isEmpty_iff.mp he⟩
    · rw [if_neg he] at hmem
      by_cases ha : (podsIn ns2).any (fun p => containsComponent p.name)
      · rw [if_pos ha] at hmem
        obtain ⟨p, _, hpe⟩ := List.mem_map.mp hmem
        exact absurd (show (checkPodEntity ns2 p).status = "Warning" by rw [hpe]; rfl)
          (checkPodEntity_facts ns2 p).2.2
      · rw [if_neg ha] at hmem
        have heq : noPodsPlaceholder ns = noControlPlanePodsPlaceholder ns2 := by
          simpa using hmem
        exact absurd heq (noPods_ne_noCP ns ns2)
  · rintro ⟨hns, hempty⟩
    refine ⟨ns, hns, ?_⟩
    rw [processNamespace_eq, if_pos (by simp [hempty])]
    simp

theorem noCP_mem_iff (podsIn : String → List Pod) (ns : String) :
    noControlPlanePodsPlaceholder ns ∈ checkControlPlanePods podsIn
      ↔ ns ∈ criticalNamespaces ∧ podsIn ns ≠ []
        ∧ ∀ p ∈ podsIn ns, containsComponent p.name = false := by
  rw [mem_checkControlPlanePods]
  constructor
  · rintro ⟨ns2, hns2, hmem⟩
    rw [processNamespace_eq] at hmem
    by_cases he : (podsIn ns2).isEmpty
    · rw [if_pos he] at hmem
      have heq : noControlPlanePodsPlaceholder ns = noPodsPlaceholder ns2 := by
        simpa using hmem
      exact absurd heq.symm (noPods_ne_noCP ns2 ns)
    · rw [if_neg he] at hmem
      by_cases ha : (podsIn ns2).any (fun p => containsComponent p.name)
      · rw [if_pos ha] at hmem
        obtain ⟨p, _, hpe⟩ := List.mem_map.mp hmem
        exact absurd (show (checkPodEntity ns2 p).status = "Warning" by rw [hpe]; rfl)
          (checkPodEntity_facts ns2 p).2.2
      · rw [if_neg ha] at hmem
        have heq : noControlPlanePodsPlaceholder ns = noControlPlanePodsPlaceholder ns2 := by
          simpa using hmem
        have hnseq : ns = ns2 := congrArg CPStatus.nsName heq
        subst hnseq
        refine ⟨hns2, by simpa [List.isEmpty_iff] using he, ?_⟩
        intro p hp
        have ha2 : (podsIn ns).any (fun q => containsComponent q.name) = false := by
          simpa using ha
        have hp2 := List.any_eq_false.mp ha2 p hp
        simpa using hp2
  · rintro ⟨hns, hne, hnone⟩
    refine ⟨ns, hns, ?_⟩
    rw [processNamespace_eq,
      if_neg (by simpa [List.isEmpty_iff] using hne),
      if_neg (by simp [List.any_eq_false]; intro p hp; simpa using hnone p hp)]
    simp

/-- C8 (confirmed): for every namespace in the critical list, the `no pods
in namespace` Warning placeholder appears in the probe's result exactly when
the namespace yields zero pods, and the distinct `no control plane pods in
namespace` Warning placeholder appears exactly when the namespace yields
pods but none whose name contains a component substring; consequently the
two placeholder kinds never both appear for the same namespace in one
run. -/
theorem controlPlane_placeholders :
    ∀ (podsIn : String → List Pod) (ns : String),
      (noPodsPlaceholder ns ∈ checkControlPlanePods podsIn
          ↔ ns ∈ criticalNamespaces ∧ podsIn ns = [])
      ∧ (noControlPlanePodsPlaceholder ns ∈ checkControlPlanePods podsIn
          ↔ ns ∈ criticalNamespaces ∧ podsIn ns ≠ []
            ∧ ∀ p ∈ podsIn ns, containsComponent p.name = false)
      ∧ ¬(noPodsPlaceholder ns ∈ checkControlPlanePods podsIn
          ∧ noControlPlanePodsPlaceholder ns ∈ checkControlPlanePods podsIn) := by
  intro podsIn ns
  refine ⟨noPods_mem_iff podsIn ns, noCP_mem_iff podsIn ns, ?_⟩
  rintro ⟨h1, h2⟩
  have he := ((noPods_mem_iff podsIn ns).mp h1).2
  have hne := ((noCP_mem_iff podsIn ns).mp h2).2.1
  exact hne he

/-- C8 witness: the namespace `openshift-etcd` holding only a pod named
`foo-unrelated` gets the `no control plane pods` placeholder. -/
theorem controlPlane_placeholders_witness :
    noControlPlanePodsPlaceholder "openshift-etcd"
      ∈ checkControlPlanePods (fun ns =>
          if ns == "openshift-etcd" then
            [{ name := "foo-unrelated",
               status := some { phase := "Running", containerStatuses := none } }]
          else []) :=
  (controlPlane_placeholders
    (fun ns =>
      if ns == "openshift-etcd" then
        [{ name := "foo-unrelated",
           status := some { phase := "Running", containerStatuses := none } }]
      else [])
    "openshift-etcd").2.1.mpr ⟨by decide, by decide, by decide⟩

/-! ## The issues-nonempty invariant -/

theorem nodeLevelOf_cases (c : Condition) :
    nodeLevelOf c = "Unhealthy" ∨ nodeLevelOf c = "Warning" := by
  unfold nodeLevelOf
  by_cases h : nodeReadyBad c <;> simp [h]

theorem nodeLevelOf_unhealthy (c : Condition) (h : nodeLevelOf c = "Unhealthy") :
    nodeReadyBad c = true := by
  by_cases hb : nodeReadyBad c
  · exact hb
  · rw [nodeLevelOf, if_neg hb] at h
    simp at h

theorem opLevelOf_cases (c : Condition) :
    opLevelOf c = "Unhealthy" ∨ opLevelOf c = "Warning" := by
  unfold opLevelOf
  by_cases h1 : opDegraded c
  · simp [h1]
  · by_cases h2 : opProgressing c <;> simp [h1, h2]

/-- C9 (confirmed): every entity produced by the Master Nodes, Critical
Operators and Control-Plane Pods probes has a non-empty issues list whenever
its level is Unhealthy or Error, for every possible fetch outcome. -/
theorem entity_issues_nonempty_invariant :
    (∀ (fetched : Except String (List Node)) (s : NodeStatus),
        s ∈ checkMasterNodes fetched →
        s.status = "Unhealthy" ∨ s.status = "Error" → s.issues ≠ [])
    ∧ (∀ (fetched : Except String (List ClusterOperator)) (s : OperatorStatus),
        s ∈ checkCriticalOperators fetched →
        s.status = "Unhealthy" ∨ s.status = "Error" → s.issues ≠ [])
    ∧ (∀ (podsIn : String → List Pod) (s : CPStatus),
        s ∈ checkControlPlanePods podsIn →
        s.status = "Unhealthy" ∨ s.status = "Error" → s.issues ≠ []) := by
  refine ⟨?_, ?_, ?_⟩
  · intro fetched s hs hlvl
    cases fetched with
    | error e =>
        simp [checkMasterNodes] at hs
        subst hs
        simp
    | ok nodes =>
        simp [checkMasterNodes] at hs
        obtain ⟨n, _, rfl⟩ := hs
        obtain ⟨hst, hi, _, _⟩ := foldNode_spec n.conditions
          { name := n.name, status := "Healthy", issues := [], warnings := [] }
        rw [checkNode] at hlvl ⊢
        rw [hst] at hlvl
        rw [hi]
        rcases hlast : (n.conditions.filter nodeAdverse).getLast? with _ | c
        · rw [hlast] at hlvl
          rcases hlvl with h | h <;> simp at h
        · rw [hlast] at hlvl
          have hlvl2 : nodeLevelOf c = "Unhealthy" ∨ nodeLevelOf c = "Error" := by
            simpa using hlvl
          have hu : nodeLevelOf c = "Unhealthy" := by
            rcases hlvl2 with h | h
            · exact h
            · rcases nodeLevelOf_cases c with hc | hc <;> rw [hc] at h <;> simp at h
          have hrb := nodeLevelOf_unhealthy c hu
          have hmemf : c ∈ n.conditions.filter nodeAdverse := List.mem_of_mem_getLast? hlast
          have hc : c ∈ n.conditions := (List.mem_filter.mp hmemf).1
          have hmem : ("Node not ready: " ++ c.message)
              ∈ (n.conditions.filter nodeReadyBad).map
                  (fun c => "Node not ready: " ++ c.message) :=
            List.mem_map.mpr ⟨c, List.mem_filter.mpr ⟨hc, hrb⟩, rfl⟩
          simpa using List.ne_nil_of_mem hmem
  · intro fetched s hs hlvl
    cases fetched with
    | error e =>
        simp [checkCriticalOperators] at hs
        subst hs
        simp
    | ok ops =>
        simp [checkCriticalOperators] at hs
        obtain ⟨op, _, rfl⟩ := hs
        rcases hco : op.conditions with _ | conds
        · rw [checkOperator, hco] at hlvl
          rcases hlvl with h | h <;> simp at h
        · obtain ⟨hst, hi, _⟩ := foldOperator_spec conds
            { name := op.name, status := "Healthy", issues := [] }
          rw [checkOperator, hco] at hlvl ⊢
          rw [hst] at hlvl
          rw [hi]
          rcases hlast : (conds.filter opAdverse).getLast? with _ | c
          · rw [hlast] at hlvl
            rcases hlvl with h | h <;> simp at h
          · have hmemf : c ∈ conds.filter opAdverse := List.mem_of_mem_getLast? hlast
            have hmem : opMsgOf c ∈ (conds.filter opAdverse).map opMsgOf :=
              List.mem_map.mpr ⟨c, hmemf, rfl⟩
            simpa using List.ne_nil_of_mem hmem
  · intro podsIn s hs hlvl
    obtain ⟨ns, _, hmem⟩ := (mem_checkControlPlanePods podsIn s).mp hs
    rw [processNamespace_eq] at hmem
    by_cases he : (podsIn ns).isEmpty
    · rw [if_pos he] at hmem
      have : s = noPodsPlaceholder ns := by simpa using hmem
      subst this
      rcases hlvl with h | h <;> simp [noPodsPlaceholder] at h
    · rw [if_neg he] at hmem
      by_cases ha : (podsIn ns).any (fun p => containsComponent p.name)
      · rw [if_pos ha] at hmem
        obtain ⟨p, _, hpe⟩ := List.mem_map.mp hmem
        rw [← hpe]
        exact (checkPodEntity_facts ns p).2.1 (by rw [hpe]; exact hlvl)
      · rw [if_neg ha] at hmem
        have : s = noControlPlanePodsPlaceholder ns := by simpa using hmem
        subst this
        rcases hlvl with h | h <;> simp [noControlPlanePodsPlaceholder] at h

/-- C9 witness: on a concrete failed node fetch, the produced Error entity
has a non-empty issues list. -/
theorem entity_issues_nonempty_invariant_witness :
    ({ name := "unknown", status := "Error", issues := ["connection refused"],
       warnings := [] } : NodeStatus).issues ≠ [] :=
  entity_issues_nonempty_invariant.1 (.error "connection refused")
    { name := "unknown", status := "Error", issues := ["connection refused"], warnings := [] }
    (by simp [checkMasterNodes]) (Or.inr rfl)

/-! ## Fetch failures versus empty namespaces -/

/-- C10 (confirmed): when the pod-list API call raises, `_get_paginated_pods`
returns the empty list — exactly what it returns for a genuinely empty
namespace — so the Control-Plane Pods probe emits the same `no pods in
namespace` Warning placeholder in both cases and cannot distinguish them. -/
theorem fetch_failure_indistinguishable_from_empty :
    ∀ (api : PageApi Pod) (e : String) (fuel : Nat),
      api 0 none = .error e →
      getPaginatedPods api fuel = []
      ∧ getPaginatedPods api fuel
          = getPaginatedPods (fun _ _ => .ok { items := [], cont := none }) fuel
      ∧ ∀ (podsIn : String → List Pod) (ns : String),
          ns ∈ criticalNamespaces → podsIn ns = getPaginatedPods api fuel →
          noPodsPlaceholder ns ∈ checkControlPlanePods podsIn := by
  intro api e fuel h
  have h1 : getPaginatedPods api fuel = [] := by
    simp only [getPaginatedPods, getPaginatedPodsCore, h]
  have h2 : getPaginatedPods
      (fun _ _ => (.ok { items := [], cont := none } : Except String (Page Pod))) fuel
      = [] := by
    cases fuel with
    | zero => rfl
    | succ f => rfl
  refine ⟨h1, by rw [h1, h2], ?_⟩
  intro podsIn ns hns hpods
  exact (noPods_mem_iff podsIn ns).mpr ⟨hns, by rw [hpods, h1]⟩

/-- C10 witness: a pod fetch whose first call raises yields the empty
list. -/
theorem fetch_failure_indistinguishable_witness :
    getPaginatedPods (fun _ _ => (.error "connection reset" : Except String (Page Pod))) 2
      = [] :=
  (fetch_failure_indistinguishable_from_empty
    (fun _ _ => .error "connection reset") "connection reset" 2 rfl).1

end K8s
